import Mathlib

/-!
Shallow embedding of `src/app.js` (Auto-gen-payment-link-stripe).

The repository exposes two HTTP endpoints:
  * `POST /api/v1/create-payment-link`: validates the body against a zod
    schema (`createPaymentLinkSchema`) and issues three dependent provider
    calls (create product, create price, create payment link);
  * `GET /api/v1/successful-payments`: lists payment intents, filters to
    the ones with status `"succeeded"` and resolves, for each, its checkout
    session, buyer details and line items, joined with `Promise.all`.

The embedding models request bodies as records of optional JSON fields, the
zod parse as an `Except` that distinguishes collected `ZodError` issues from
a plain thrown `Error` (a `throw` inside a zod `.transform` propagates out of
`parse` as the raw error, it is NOT turned into a `ZodError`), the provider
as a record of `Except`-valued call functions, and each handler as a pure
function from body and provider to an HTTP response (plus, for the creation
handler, the ordered trace of provider calls it made).
-/

/-- A JSON field value as it can appear in the request bodies this app
receives: the app only ever distinguishes strings from non-strings, and the
only non-string type the claims exercise is a number. -/
inductive JField
  | str (s : String)
  | num (q : ℚ)
deriving DecidableEq, Repr

/-- Request body of `POST /api/v1/create-payment-link`: each schema key is
present with some JSON value or absent (`none`, i.e. `undefined`). -/
structure LinkBody where
  productName : Option JField
  productDescription : Option JField
  unitAmount : Option JField
  currency : Option JField
  quantity : Option JField
deriving DecidableEq, Repr

/-- One formatted zod issue as produced by the catch block of the handler:
`{ field: err.path.join('.'), message: err.message }`; all paths here have a
single component, so `field` is just the key name. -/
structure FieldError where
  field : String
  message : String
deriving DecidableEq, Repr

/-- How `createPaymentLinkSchema.parse` can fail: either zod collected
issues and threw a `ZodError`, or a `.transform` callback threw a plain
`Error` (which zod lets propagate: it is not an instance of `ZodError`). -/
inductive ParseError
  | zodError (errors : List FieldError)
  | thrown (message : String)
deriving DecidableEq, Repr

/-- The value produced by a successful `createPaymentLinkSchema.parse`:
`unitAmount` and `quantity` are JavaScript numbers after coercion, modelled
as rationals (the transforms check positivity but never integrality). -/
structure ParsedLink where
  productName : String
  productDescription : Option String
  unitAmount : ℚ
  currency : String
  quantity : ℚ
deriving DecidableEq, Repr

/-- Numeric value of a decimal digit character (only applied to digits). -/
def charDigit (c : Char) : ℕ := c.toNat - 48

/-- Value of a list of decimal digit characters (most significant first). -/
def natOfDigits (l : List Char) : ℕ :=
  l.foldl (fun a c => a * 10 + charDigit c) 0

/-- Surrounding-whitespace removal on a character list, as JavaScript string
to number coercion performs before parsing. -/
def jsTrim (cs : List Char) : List Char :=
  ((cs.dropWhile Char.isWhitespace).reverse.dropWhile Char.isWhitespace).reverse

/-- JavaScript `Number(string)` coercion, on the fragment of its grammar the
app's inputs use: optional surrounding whitespace, optional sign, decimal
digits with an optional fractional part (the value of `sign (i.f)` being
`sign * (i * 10^|f| + f) / 10^|f|`). A whitespace-only string coerces to 0;
anything outside this grammar (and the unused exponent/hex forms) is `none`,
standing for `NaN`. -/
def jsNumber (s : String) : Option ℚ :=
  match jsTrim s.toList with
  | [] => some 0
  | cs =>
    let sign : ℤ := if cs.head? = some '-' then -1 else 1
    let digits := if cs.head? = some '-' ∨ cs.head? = some '+' then cs.tail else cs
    let intPart := digits.takeWhile Char.isDigit
    let rest := digits.dropWhile Char.isDigit
    match rest with
    | [] =>
      if intPart.isEmpty then none
      else some (mkRat (sign * natOfDigits intPart) 1)
    | c :: frac =>
      if c = '.' then
        let fracD := frac.takeWhile Char.isDigit
        if (frac.dropWhile Char.isDigit).isEmpty ∧ ¬(intPart.isEmpty ∧ fracD.isEmpty) then
          some (mkRat (sign * (natOfDigits intPart * 10 ^ fracD.length + natOfDigits fracD))
            (10 ^ fracD.length))
        else none
      else none

/-- Outcome of parsing one schema field: either a `.transform` callback threw
a plain `Error` with the given message, or zod recorded the given issues and
(when the field survived) produced a value. -/
inductive FieldR (α : Type)
  | thrown (message : String)
  | res (issues : List FieldError) (val : Option α)
deriving DecidableEq, Repr

/-- Field `productName: z.string().min(1, 'Product name is required')`. -/
def parseProductName (f : Option JField) : List FieldError × Option String :=
  match f with
  | none => ([⟨"productName", "Required"⟩], none)
  | some (JField.num _) => ([⟨"productName", "Expected string, received number"⟩], none)
  | some (JField.str s) =>
    if s.length < 1 then ([⟨"productName", "Product name is required"⟩], none)
    else ([], some s)

/-- Field `productDescription: z.string().optional()`. -/
def parseProductDescription (f : Option JField) : List FieldError × Option (Option String) :=
  match f with
  | none => ([], some none)
  | some (JField.num _) => ([⟨"productDescription", "Expected string, received number"⟩], none)
  | some (JField.str s) => ([], some (some s))

/-- Field `unitAmount: z.string().min(1, 'Unit amount is required').transform(...)`:
the transform coerces with `Number` and throws a plain
`Error('Unit amount must be a positive number')` when the result is `NaN` or
`<= 0`; the transform only runs when the string check chain succeeded. -/
def parseUnitAmount (f : Option JField) : FieldR ℚ :=
  match f with
  | none => .res [⟨"unitAmount", "Required"⟩] none
  | some (JField.num _) => .res [⟨"unitAmount", "Expected string, received number"⟩] none
  | some (JField.str s) =>
    if s.length < 1 then .res [⟨"unitAmount", "Unit amount is required"⟩] none
    else
      match jsNumber s with
      | none => .thrown "Unit amount must be a positive number"
      | some q =>
        if q ≤ 0 then .thrown "Unit amount must be a positive number"
        else .res [] (some q)

/-- Field `currency: z.string().min(1, 'Currency is required')`. -/
def parseCurrency (f : Option JField) : List FieldError × Option String :=
  match f with
  | none => ([⟨"currency", "Required"⟩], none)
  | some (JField.num _) => ([⟨"currency", "Expected string, received number"⟩], none)
  | some (JField.str s) =>
    if s.length < 1 then ([⟨"currency", "Currency is required"⟩], none)
    else ([], some s)

/-- Field `quantity: z.string().optional().default('1').transform(...)`: an
absent field defaults to the string `'1'` before the transform; the transform
coerces with `Number` and throws a plain `Error('Quantity must be at least 1')`
when the result is `NaN` or `< 1`. -/
def parseQuantity (f : Option JField) : FieldR ℚ :=
  match f with
  | some (JField.num _) => .res [⟨"quantity", "Expected string, received number"⟩] none
  | some (JField.str s) =>
    (match jsNumber s with
     | none => FieldR.thrown "Quantity must be at least 1"
     | some q =>
       if q < 1 then FieldR.thrown "Quantity must be at least 1"
       else FieldR.res [] (some q))
  | none =>
    (match jsNumber "1" with
     | none => FieldR.thrown "Quantity must be at least 1"
     | some q =>
       if q < 1 then FieldR.thrown "Quantity must be at least 1"
       else FieldR.res [] (some q))

/-- The whole `createPaymentLinkSchema.parse(req.body)`: zod parses the shape
keys in declaration order, collecting issues across fields; a plain `Error`
thrown by a `.transform` propagates immediately (issues gathered so far are
lost and later fields are not examined); if any issue was collected the parse
throws a `ZodError` with all of them, else it returns the parsed value. -/
def parseLinkBody (b : LinkBody) : Except ParseError ParsedLink :=
  match parseUnitAmount b.unitAmount with
  | .thrown m => .error (.thrown m)
  | .res i3 v3 =>
    match parseQuantity b.quantity with
    | .thrown m => .error (.thrown m)
    | .res i5 v5 =>
      match (parseProductName b.productName).2, (parseProductDescription b.productDescription).2,
            v3, (parseCurrency b.currency).2, v5 with
      | some pn, some pd, some ua, some cur, some qt =>
        if ((parseProductName b.productName).1 ++ (parseProductDescription b.productDescription).1 ++
            i3 ++ (parseCurrency b.currency).1 ++ i5).isEmpty then
          .ok ⟨pn, pd, ua, cur, qt⟩
        else
          .error (.zodError ((parseProductName b.productName).1 ++
            (parseProductDescription b.productDescription).1 ++
            i3 ++ (parseCurrency b.currency).1 ++ i5))
      | _, _, _, _, _ =>
        .error (.zodError ((parseProductName b.productName).1 ++
          (parseProductDescription b.productDescription).1 ++
          i3 ++ (parseCurrency b.currency).1 ++ i5))

/-- A Stripe product as returned by `stripe.products.create` /
`stripe.products.retrieve` (only the fields the app reads). -/
structure Product where
  id : String
  name : String
  description : Option String
deriving DecidableEq, Repr

/-- A Stripe price as returned by `stripe.prices.create` (the app only reads
its `id`). -/
structure Price where
  id : String
deriving DecidableEq, Repr

/-- A Stripe payment link as returned by `stripe.paymentLinks.create` (the
app reads `id` and `url`). -/
structure PaymentLink where
  id : String
  url : String
deriving DecidableEq, Repr

/-- One provider call made by the creation handler, with the arguments the
app passes that vary per request (fixed options such as
`tax_behavior: 'exclusive'`, `automatic_tax` and `phone_number_collection`
are constants in the source and are not part of the call identity). -/
inductive StripeCall
  | createProduct (name : String) (description : Option String)
  | createPrice (unitAmount : ℚ) (currency : String) (productId : String)
  | createPaymentLink (priceId : String) (quantity : ℚ)
deriving DecidableEq, Repr

/-- The provider client used by the creation handler: each operation either
returns its object or fails with an error whose `message` is the string. -/
structure CreateProvider where
  products_create : String → Option String → Except String Product
  prices_create : ℚ → String → String → Except String Price
  paymentLinks_create : String → ℚ → Except String PaymentLink

/-- HTTP responses of `POST /api/v1/create-payment-link`: 201 with a JSON
object given as its exact ordered key/value pairs, 400 with
`{ message: 'Validation failed', errors: [...] }`, or 500 with
`{ error: message }`. -/
inductive CreateResponse
  | created (body : List (String × String))
  | badRequest (message : String) (errors : List FieldError)
  | serverError (message : String)
deriving DecidableEq, Repr

/-- The `POST /api/v1/create-payment-link` handler: parse the body with the
zod schema, then sequentially create product, price (referencing the product
id) and payment link (referencing the price id and the quantity); respond
201 with exactly `{ paymentLinkId, url }` on success, 400 with the formatted
field errors when parse threw a `ZodError`, and 500 with `error.message` for
any other throw (a plain transform `Error` or a provider failure). Returns
the response together with the ordered trace of provider calls made. -/
def handleCreatePaymentLink (b : LinkBody) (p : CreateProvider) :
    CreateResponse × List StripeCall :=
  match parseLinkBody b with
  | .error (.zodError errs) => (.badRequest "Validation failed" errs, [])
  | .error (.thrown m) => (.serverError m, [])
  | .ok parsed =>
    let t1 := [StripeCall.createProduct parsed.productName parsed.productDescription]
    match p.products_create parsed.productName parsed.productDescription with
    | .error e => (.serverError e, t1)
    | .ok product =>
      let t2 := t1 ++ [StripeCall.createPrice parsed.unitAmount parsed.currency product.id]
      match p.prices_create parsed.unitAmount parsed.currency product.id with
      | .error e => (.serverError e, t2)
      | .ok price =>
        let t3 := t2 ++ [StripeCall.createPaymentLink price.id parsed.quantity]
        match p.paymentLinks_create price.id parsed.quantity with
        | .error e => (.serverError e, t3)
        | .ok pl =>
          (.created [("paymentLinkId", pl.id), ("url", pl.url)], t3)

/-- Left-pad the decimal representation of `n` with zeros to `w` digits, as
needed by `Date.prototype.toISOString` field formatting. -/
def padNum (w : ℕ) (n : ℕ) : String :=
  let s := toString n
  String.mk (List.replicate (w - s.length) '0') ++ s

/-- Civil date (year, month, day) of a day count since 1970-01-01 in the
proleptic Gregorian calendar (the standard era-based conversion used by
ECMAScript date-to-component mapping). -/
def civilFromDays (z : ℕ) : ℕ × ℕ × ℕ :=
  let z2 := z + 719468
  let era := z2 / 146097
  let doe := z2 % 146097
  let yoe := (doe - doe / 1460 + doe / 36524 - doe / 146096) / 365
  let y := yoe + era * 400
  let doy := doe - (365 * yoe + yoe / 4 - yoe / 100)
  let mp := (5 * doy + 2) / 153
  let d := doy - (153 * mp + 2) / 5 + 1
  let m := if mp < 10 then mp + 3 else mp - 9
  (if m ≤ 2 then y + 1 else y, m, d)

/-- JavaScript `new Date(ms).toISOString()` for a nonnegative millisecond
timestamp: the UTC instant formatted as `YYYY-MM-DDTHH:mm:ss.sssZ`. -/
def toISOString (ms : ℕ) : String :=
  let days := ms / 86400000
  let rem := ms % 86400000
  let date := civilFromDays days
  padNum 4 date.1 ++ "-" ++ padNum 2 date.2.1 ++ "-" ++ padNum 2 date.2.2 ++
    "T" ++ padNum 2 (rem / 3600000) ++ ":" ++ padNum 2 (rem % 3600000 / 60000) ++
    ":" ++ padNum 2 (rem % 60000 / 1000) ++ "." ++ padNum 3 (rem % 1000) ++ "Z"

/-- JavaScript `a || b` specialised to the optional strings the report
handler chains: `a` is taken when it is present and truthy (a nonempty
string), otherwise the fallback `b` is used; `null`/`undefined` and the empty
string are falsy. -/
def jsOrElse (a : Option String) (b : String) : String :=
  match a with
  | some s => if s = "" then b else s
  | none => b

/-- Billing details of a charge (`charge.billing_details`), as read by the
buyer-field fallbacks. -/
structure BillingDetails where
  email : Option String
  name : Option String
deriving DecidableEq, Repr

/-- A charge inside a payment intent's expanded `charges.data`. -/
structure Charge where
  billing_details : Option BillingDetails
deriving DecidableEq, Repr

/-- A payment intent from `stripe.paymentIntents.list` (only the fields the
report handler reads); `charges` is the expanded `charges.data` array, empty
when the intent has no charges. `created` is in epoch seconds. -/
structure Intent where
  id : String
  amount : ℤ
  currency : String
  status : String
  created : ℕ
  charges : List Charge
deriving DecidableEq, Repr

/-- Customer details captured on a checkout session
(`session.customer_details`). -/
structure CustomerDetails where
  email : Option String
  name : Option String
  phone : Option String
deriving DecidableEq, Repr

/-- One expanded line item of a checkout session: the app reads
`item.price.product` (a product id) and `item.quantity`. -/
structure SessionLineItem where
  priceProduct : String
  quantity : ℤ
deriving DecidableEq, Repr

/-- A checkout session; `line_items` is present only on the retrieve call
that expanded it (`none` models an absent `line_items` property, whose
`.data?.map(...) || []` chain yields an empty item list). -/
structure Session where
  id : String
  customer_details : Option CustomerDetails
  line_items : Option (List SessionLineItem)
deriving DecidableEq, Repr

/-- One entry of a payment record's `itemsBought`. -/
structure ItemDetail where
  productName : String
  quantity : ℤ
  productDescription : String
deriving DecidableEq, Repr

/-- One record of the successful-payments report. -/
structure PaymentRecord where
  id : String
  amount : ℤ
  currency : String
  status : String
  created : String
  buyerEmail : String
  buyerName : String
  buyerPhone : String
  itemsBought : List ItemDetail
deriving DecidableEq, Repr

/-- The provider client as used by `GET /api/v1/successful-payments`: the
intent listing, the checkout-session listing filtered by payment intent id
(returning the response's `data` array), the session retrieval with expanded
line items, and the product retrieval. Each call can fail with an error
message. -/
structure ReportProvider where
  paymentIntents_list : Except String (List Intent)
  sessions_list : String → Except String (List Session)
  sessions_retrieve : String → Except String Session
  products_retrieve : String → Except String Product

/-- Buyer contact fields computed from the retrieved session and the
intent's first charge, exactly as in the source:
`buyerEmail = session.customer_details?.email || charge?.billing_details?.email || 'N/A'`,
likewise for the name, while `buyerPhone` falls back from the session
directly to `'N/A'` with no charge fallback. -/
def buyerFields (sw : Session) (charge : Option Charge) : String × String × String :=
  let bd := charge.bind Charge.billing_details
  (jsOrElse (sw.customer_details.bind CustomerDetails.email)
     (jsOrElse (bd.bind BillingDetails.email) "N/A"),
   jsOrElse (sw.customer_details.bind CustomerDetails.name)
     (jsOrElse (bd.bind BillingDetails.name) "N/A"),
   jsOrElse (sw.customer_details.bind CustomerDetails.phone) "N/A")

/-- Outcome of a JavaScript `Promise.all(list.map(f))` over fallible per-item
work: resolve every item in listing order and collect the values, or reject
with the error of a failing item (the joint await never yields the sibling
results once one item rejects). -/
def exceptMap {α β : Type} (f : α → Except String β) : List α → Except String (List β)
  | [] => .ok []
  | a :: t =>
    match f a with
    | .error e => .error e
    | .ok b =>
      match exceptMap f t with
      | .error e => .error e
      | .ok bs => .ok (b :: bs)

/-- Resolution of one line item inside a session's expanded `line_items`:
retrieve the underlying product (`stripe.products.retrieve(item.price.product)`)
and pair its name and description (with the
`product.description || 'No description available'` fallback) with the line
item's quantity. -/
def resolveItem (p : ReportProvider) (item : SessionLineItem) : Except String ItemDetail :=
  match p.products_retrieve item.priceProduct with
  | .error e => .error e
  | .ok product =>
    .ok { productName := product.name
          quantity := item.quantity
          productDescription := jsOrElse product.description "No description available" }

/-- Resolution of one succeeded intent inside the `Promise.all` callback:
list the checkout sessions for the intent; if the response has no first
session, resolve to `null` (no record, no error); otherwise retrieve the
first session with expanded line items, compute the buyer fields, resolve
every line item's product, and build the record. Any provider failure
rejects this resolution with that error. -/
def resolveIntent (p : ReportProvider) (intent : Intent) :
    Except String (Option PaymentRecord) :=
  match p.sessions_list intent.id with
  | .error e => .error e
  | .ok sessions =>
    match sessions.head? with
    | none => .ok none
    | some s0 =>
      match p.sessions_retrieve s0.id with
      | .error e => .error e
      | .ok sw =>
        match exceptMap (resolveItem p) (sw.line_items.getD []) with
        | .error e => .error e
        | .ok items =>
          .ok (some
            { id := intent.id
              amount := intent.amount
              currency := intent.currency
              status := intent.status
              created := toISOString (intent.created * 1000)
              buyerEmail := (buyerFields sw intent.charges.head?).1
              buyerName := (buyerFields sw intent.charges.head?).2.1
              buyerPhone := (buyerFields sw intent.charges.head?).2.2
              itemsBought := items })

/-- Body of the `GET /api/v1/successful-payments` try block: list the
intents, filter to status `"succeeded"`, resolve each in a joint
`Promise.all` (if any single resolution rejects, the joint await rejects
with that error), and drop the `null` results with `.filter(Boolean)`. -/
def listSuccessfulPayments (p : ReportProvider) : Except String (List PaymentRecord) :=
  match p.paymentIntents_list with
  | .error e => .error e
  | .ok intents =>
    match exceptMap (resolveIntent p) (intents.filter fun intent => intent.status == "succeeded") with
    | .error e => .error e
    | .ok results => .ok (results.filterMap id)

/-- HTTP responses of `GET /api/v1/successful-payments`: 200 with
`{ successfulPayments: [...] }` or 500 with `{ error: message }`. -/
inductive ReportResponse
  | ok (successfulPayments : List PaymentRecord)
  | serverError (message : String)
deriving DecidableEq, Repr

/-- The whole `GET /api/v1/successful-payments` handler: the try block above
with its catch mapping any rejection to a 500 carrying `error.message`. -/
def handleSuccessfulPayments (p : ReportProvider) : ReportResponse :=
  match listSuccessfulPayments p with
  | .ok records => .ok records
  | .error e => .serverError e

/-! Concrete fixtures used to exercise the handlers on explicit inputs. -/

/-- A creation provider no call should ever reach: every operation fails. -/
def trivialCreateProvider : CreateProvider :=
  { products_create := fun _ _ => .error "no call expected"
    prices_create := fun _ _ _ => .error "no call expected"
    paymentLinks_create := fun _ _ => .error "no call expected" }

/-- A creation provider where every call succeeds with fixed objects. -/
def okCreateProvider : CreateProvider :=
  { products_create := fun name desc => .ok { id := "prod_1", name := name, description := desc }
    prices_create := fun _ _ _ => .ok { id := "price_1" }
    paymentLinks_create := fun _ _ =>
      .ok { id := "plink_1", url := "https://buy.stripe.com/test_1" } }

/-- A creation provider whose price-creation step fails. -/
def priceFailProvider : CreateProvider :=
  { products_create := fun name desc => .ok { id := "prod_1", name := name, description := desc }
    prices_create := fun _ _ _ => .error "price boom"
    paymentLinks_create := fun _ _ =>
      .ok { id := "plink_1", url := "https://buy.stripe.com/test_1" } }

/-- A fully valid creation request body. -/
def validBody : LinkBody :=
  { productName := some (.str "Widget")
    productDescription := some (.str "A widget")
    unitAmount := some (.str "500")
    currency := some (.str "usd")
    quantity := some (.str "2") }

/-- A creation body whose `unitAmount` is the string `"0"`. -/
def zeroAmountBody : LinkBody :=
  { productName := some (.str "Widget")
    productDescription := none
    unitAmount := some (.str "0")
    currency := some (.str "usd")
    quantity := none }

/-- A creation body whose `unitAmount` is the non-integer numeric string
`"1.5"` (and is otherwise valid). -/
def halfAmountBody : LinkBody :=
  { productName := some (.str "Widget")
    productDescription := none
    unitAmount := some (.str "1.5")
    currency := some (.str "usd")
    quantity := none }

/-- A creation body with `unitAmount` supplied as the JSON number `500`
(which satisfies the numeric constraint) and `quantity` as the string
`"0"`. -/
def numAmountMixedBody : LinkBody :=
  { productName := some (.str "Widget")
    productDescription := none
    unitAmount := some (.num 500)
    currency := some (.str "usd")
    quantity := some (.str "0") }

/-- A creation body with both `unitAmount` and `quantity` supplied as JSON
numbers that satisfy the numeric constraints. -/
def numBothBody : LinkBody :=
  { productName := some (.str "Widget")
    productDescription := none
    unitAmount := some (.num 500)
    currency := some (.str "usd")
    quantity := some (.num 2) }

/-- Session used by the report fixtures for intent `pi_A`: customer details
captured, one line item. -/
def sessionA : Session :=
  { id := "cs_A"
    customer_details := some { email := some "a@example.com", name := some "Alice", phone := none }
    line_items := some [{ priceProduct := "prod_A", quantity := 1 }] }

/-- Session used by the report fixtures for intent `pi_C`: no customer
details, no expanded line items. -/
def sessionC : Session :=
  { id := "cs_C", customer_details := none, line_items := none }

/-- Succeeded intent `pi_A` of the report fixtures. -/
def intentA : Intent :=
  { id := "pi_A", amount := 500, currency := "usd", status := "succeeded",
    created := 0, charges := [] }

/-- Succeeded intent `pi_B` of the report fixtures (no discoverable
session in the fixtures that list it). -/
def intentB : Intent :=
  { id := "pi_B", amount := 700, currency := "usd", status := "succeeded",
    created := 0, charges := [] }

/-- Succeeded intent `pi_C` of the report fixtures, created at epoch
seconds 1714000000. -/
def intentC : Intent :=
  { id := "pi_C", amount := 900, currency := "usd", status := "succeeded",
    created := 1714000000, charges := [] }

/-- Non-succeeded intent `pi_D` of the report fixtures. -/
def intentD : Intent :=
  { id := "pi_D", amount := 100, currency := "usd", status := "requires_payment_method",
    created := 0, charges := [] }

/-- Report fixture with four listed intents: `pi_A` (succeeded, resolvable),
`pi_B` (succeeded, but its session listing is empty), `pi_C` (succeeded,
resolvable, created 1714000000), and `pi_D` (not succeeded). -/
def reportProviderA : ReportProvider :=
  { paymentIntents_list := .ok [intentA, intentB, intentC, intentD]
    sessions_list := fun iid =>
      if iid = "pi_A" then .ok [sessionA]
      else if iid = "pi_C" then .ok [sessionC]
      else .ok []
    sessions_retrieve := fun sid =>
      if sid = "cs_A" then .ok sessionA
      else if sid = "cs_C" then .ok sessionC
      else .error "no such session"
    products_retrieve := fun pid =>
      if pid = "prod_A" then .ok { id := "prod_A", name := "Widget", description := none }
      else .error "no such product" }

/-- The record `reportProviderA` resolves for intent `pi_A`. -/
def recordA : PaymentRecord :=
  { id := "pi_A", amount := 500, currency := "usd", status := "succeeded",
    created := "1970-01-01T00:00:00.000Z",
    buyerEmail := "a@example.com", buyerName := "Alice", buyerPhone := "N/A",
    itemsBought := [{ productName := "Widget", quantity := 1,
                      productDescription := "No description available" }] }

/-- The record `reportProviderA` resolves for intent `pi_C`. -/
def recordC : PaymentRecord :=
  { id := "pi_C", amount := 900, currency := "usd", status := "succeeded",
    created := "2024-04-24T23:06:40.000Z",
    buyerEmail := "N/A", buyerName := "N/A", buyerPhone := "N/A",
    itemsBought := [] }

/-- Report fixture with two succeeded intents where the session listing for
`pi_A` rejects with the provider error `"boom"` while `pi_B` is fully
resolvable. -/
def reportProviderBoom : ReportProvider :=
  { paymentIntents_list := .ok [intentA, intentB]
    sessions_list := fun iid =>
      if iid = "pi_A" then .error "boom"
      else .ok [sessionC]
    sessions_retrieve := fun sid =>
      if sid = "cs_C" then .ok sessionC
      else .error "no such session"
    products_retrieve := fun _ => .error "no such product" }

/-- The record `reportProviderBoom` would resolve for intent `pi_B` (its
sibling `pi_A` is the one whose resolution rejects). -/
def recordBoomB : PaymentRecord :=
  { id := "pi_B", amount := 700, currency := "usd", status := "succeeded",
    created := "1970-01-01T00:00:00.000Z",
    buyerEmail := "N/A", buyerName := "N/A", buyerPhone := "N/A",
    itemsBought := [] }

/-- Report fixture with exactly two succeeded intents: `pi_B`, whose
checkout-session listing returns no session, and `pi_C`, which is fully
resolvable. -/
def reportProviderTwo : ReportProvider :=
  { paymentIntents_list := .ok [intentB, intentC]
    sessions_list := fun iid =>
      if iid = "pi_C" then .ok [sessionC]
      else .ok []
    sessions_retrieve := fun sid =>
      if sid = "cs_C" then .ok sessionC
      else .error "no such session"
    products_retrieve := fun _ => .error "no such product" }

/-- Report fixture with one succeeded intent whose checkout session captured
no customer details while the intent's first charge carries billing email
`a@b.com`. -/
def reportProviderBilling : ReportProvider :=
  { paymentIntents_list := .ok
      [{ id := "pi_9", amount := 500, currency := "usd", status := "succeeded",
         created := 0,
         charges := [⟨some ⟨some "a@b.com", some "Al"⟩⟩] }]
    sessions_list := fun iid =>
      if iid = "pi_9" then .ok [{ id := "cs_9", customer_details := none, line_items := none }]
      else .ok []
    sessions_retrieve := fun sid =>
      if sid = "cs_9" then .ok { id := "cs_9", customer_details := none, line_items := none }
      else .error "no such session"
    products_retrieve := fun _ => .error "no such product" }

/-- The single record `reportProviderBilling` resolves: email and name fall
back to the charge's billing details, the phone has no charge fallback. -/
def recordBilling : PaymentRecord :=
  { id := "pi_9", amount := 500, currency := "usd", status := "succeeded",
    created := "1970-01-01T00:00:00.000Z",
    buyerEmail := "a@b.com", buyerName := "Al", buyerPhone := "N/A",
    itemsBought := [] }

/-! Helper lemmas shared by the claim theorems. -/

/-- A `unitAmount` field can only parse to a value that the transform let
through, i.e. a positive number. -/
theorem parseUnitAmount_pos (f : Option JField) (i : List FieldError) (q : ℚ)
    (h : parseUnitAmount f = .res i (some q)) : 0 < q := by
  cases f with
  | none => simp [parseUnitAmount] at h
  | some jf =>
    cases jf with
    | num _ => simp [parseUnitAmount] at h
    | str s =>
      simp only [parseUnitAmount] at h
      split at h
      · simp at h
      · split at h
        · simp at h
        · split at h
          · simp at h
          · rename_i q' hq'
            simp only [FieldR.res.injEq, Option.some.injEq] at h
            rw [← h.2]
            exact lt_of_not_le hq'

/-- A `quantity` field can only parse to a value that the transform let
through, i.e. a number that is at least 1. -/
theorem parseQuantity_ge_one (f : Option JField) (i : List FieldError) (q : ℚ)
    (h : parseQuantity f = .res i (some q)) : 1 ≤ q := by
  cases f with
  | none =>
    simp only [parseQuantity] at h
    split at h
    · simp at h
    · split at h
      · simp at h
      · rename_i q' hq'
        simp only [FieldR.res.injEq, Option.some.injEq] at h
        rw [← h.2]
        exact le_of_not_lt hq'
  | some jf =>
    cases jf with
    | num _ => simp [parseQuantity] at h
    | str s =>
      simp only [parseQuantity] at h
      split at h
      · simp at h
      · split at h
        · simp at h
        · rename_i q' hq'
          simp only [FieldR.res.injEq, Option.some.injEq] at h
          rw [← h.2]
          exact le_of_not_lt hq'

/-- An absent `quantity` field parses, through the `'1'` default, to the
number 1 with no issue. -/
theorem parseQuantity_default : parseQuantity none = .res [] (some 1) := by decide

/-- Inversion of a successful schema parse: the `unitAmount` and `quantity`
field parses produced exactly the values stored in the parsed result. -/
theorem parseLinkBody_ok_inv (b : LinkBody) (parsed : ParsedLink)
    (h : parseLinkBody b = .ok parsed) :
    (∃ i, parseUnitAmount b.unitAmount = .res i (some parsed.unitAmount)) ∧
    (∃ i, parseQuantity b.quantity = .res i (some parsed.quantity)) := by
  unfold parseLinkBody at h
  split at h
  · simp at h
  rename_i i3 v3 hua
  split at h
  · simp at h
  rename_i i5 v5 hqt
  split at h
  · rename_i pn pd ua cur qt hpn hpd hv3 hcur hv5
    split at h
    · simp only [Except.ok.injEq] at h
      subst h
      exact ⟨⟨i3, by rw [hua]⟩, ⟨i5, by rw [hqt]⟩⟩
    · simp at h
  · simp at h

/-- Every element of a successful `Promise.all` result comes from a
successfully resolved item of the mapped list. -/
theorem exceptMap_ok_mem {α β : Type} (f : α → Except String β) :
    ∀ (l : List α) (rs : List β), exceptMap f l = .ok rs →
      ∀ r ∈ rs, ∃ a ∈ l, f a = .ok r := by
  intro l
  induction l with
  | nil =>
    intro rs h r hr
    simp only [exceptMap, Except.ok.injEq] at h
    subst h
    simp at hr
  | cons a t ih =>
    intro rs h r hr
    simp only [exceptMap] at h
    split at h
    · simp at h
    rename_i b hb
    split at h
    · simp at h
    rename_i bs hbs
    simp only [Except.ok.injEq] at h
    subst h
    rcases List.mem_cons.mp hr with hr | hr
    · exact ⟨a, List.mem_cons_self a t, hr ▸ hb⟩
    · obtain ⟨a', ha', hfa'⟩ := ih bs hbs r hr
      exact ⟨a', List.mem_cons_of_mem a ha', hfa'⟩

/-- A record built by a successful intent resolution copies the intent's
identifier, amount, currency and status, and converts its `created`
epoch-seconds value through `new Date(created * 1000).toISOString()`. -/
theorem resolveIntent_fields (p : ReportProvider) (i : Intent) (r : PaymentRecord)
    (h : resolveIntent p i = .ok (some r)) :
    r.id = i.id ∧ r.amount = i.amount ∧ r.currency = i.currency ∧
    r.status = i.status ∧ r.created = toISOString (i.created * 1000) := by
  unfold resolveIntent at h
  split at h
  · simp at h
  split at h
  · simp at h
  split at h
  · simp at h
  split at h
  · simp at h
  simp only [Except.ok.injEq, Option.some.injEq] at h
  subst h
  exact ⟨rfl, rfl, rfl, rfl, rfl⟩

/-- A succeeded intent whose checkout-session listing returns an empty
`data` array resolves to `null`: no record and no error. -/
theorem resolveIntent_no_session (p : ReportProvider) (i : Intent)
    (h : p.sessions_list i.id = .ok []) : resolveIntent p i = .ok none := by
  unfold resolveIntent
  rw [h]
  rfl

/-- Inversion of a successful report: the intent listing succeeded, every
per-intent resolution of the succeeded intents succeeded, and the records
are the non-`null` resolutions in listing order. -/
theorem listSuccessfulPayments_ok_inv (p : ReportProvider) (records : List PaymentRecord)
    (h : listSuccessfulPayments p = .ok records) :
    ∃ intents results, p.paymentIntents_list = .ok intents ∧
      exceptMap (resolveIntent p) (intents.filter fun i => i.status == "succeeded") = .ok results ∧
      records = results.filterMap id := by
  unfold listSuccessfulPayments at h
  split at h
  · simp at h
  rename_i intents hintents
  split at h
  · simp at h
  rename_i results hresults
  simp only [Except.ok.injEq] at h
  exact ⟨intents, results, hintents, hresults, h.symm⟩

/-- The 200 response carries exactly the list the aggregation produced. -/
theorem handleSuccessfulPayments_ok_inv (p : ReportProvider) (records : List PaymentRecord)
    (h : handleSuccessfulPayments p = .ok records) :
    listSuccessfulPayments p = .ok records := by
  unfold handleSuccessfulPayments at h
  split at h
  · rename_i rs hrs
    simp only [ReportResponse.ok.injEq] at h
    exact h ▸ hrs
  · simp at h

/-- A rejected aggregation is reported as a 500 carrying the error. -/
theorem handleSuccessfulPayments_error (p : ReportProvider) (e : String)
    (h : listSuccessfulPayments p = .error e) :
    handleSuccessfulPayments p = .serverError e := by
  unfold handleSuccessfulPayments
  rw [h]

/-- Filtering a list of intents on status `"succeeded"` twice is the same as
filtering once. -/
theorem filter_succeeded_idem (l : List Intent) :
    ((l.filter fun i => i.status == "succeeded").filter fun i => i.status == "succeeded") =
      l.filter fun i => i.status == "succeeded" := by
  simp [List.filter_filter]

/-! Claim theorems. -/

/-- C3: for every link-creation request that passes validation and whose
provider calls all succeed, the handler invokes the provider exactly in the
order create-product, create-price (with the created product's id),
create-payment-link (with the created price's id and the quantity), and
responds 201 with a body holding exactly the keys `paymentLinkId` and `url`
taken from the created payment link. -/
theorem C3_theorem (b : LinkBody) (p : CreateProvider) (parsed : ParsedLink)
    (prod : Product) (price : Price) (pl : PaymentLink)
    (hparse : parseLinkBody b = .ok parsed)
    (hprod : p.products_create parsed.productName parsed.productDescription = .ok prod)
    (hprice : p.prices_create parsed.unitAmount parsed.currency prod.id = .ok price)
    (hlink : p.paymentLinks_create price.id parsed.quantity = .ok pl) :
    handleCreatePaymentLink b p =
      (.created [("paymentLinkId", pl.id), ("url", pl.url)],
       [.createProduct parsed.productName parsed.productDescription,
        .createPrice parsed.unitAmount parsed.currency prod.id,
        .createPaymentLink price.id parsed.quantity]) := by
  simp [handleCreatePaymentLink, hparse, hprod, hprice, hlink]

/-- Witness for C3 at a concrete request and an all-successful provider. -/
theorem C3_witness :
    parseLinkBody validBody = .ok ⟨"Widget", some "A widget", 500, "usd", 2⟩ ∧
    okCreateProvider.products_create "Widget" (some "A widget") =
      .ok ⟨"prod_1", "Widget", some "A widget"⟩ ∧
    okCreateProvider.prices_create 500 "usd" "prod_1" = .ok ⟨"price_1"⟩ ∧
    okCreateProvider.paymentLinks_create "price_1" 2 =
      .ok ⟨"plink_1", "https://buy.stripe.com/test_1"⟩ ∧
    handleCreatePaymentLink validBody okCreateProvider =
      (.created [("paymentLinkId", "plink_1"), ("url", "https://buy.stripe.com/test_1")],
       [.createProduct "Widget" (some "A widget"),
        .createPrice 500 "usd" "prod_1",
        .createPaymentLink "price_1" 2]) :=
  ⟨rfl, rfl, rfl, rfl,
    C3_theorem validBody okCreateProvider ⟨"Widget", some "A widget", 500, "usd", 2⟩
      ⟨"prod_1", "Widget", some "A widget"⟩ ⟨"price_1"⟩
      ⟨"plink_1", "https://buy.stripe.com/test_1"⟩ rfl rfl rfl rfl⟩

/-- C5: for every validated link-creation request whose price-creation call
fails, the handler responds 500 with that provider error's message, and the
payment-link-creation call is never attempted (the trace stops after the
price call and contains no link-creation call). -/
theorem C5_theorem (b : LinkBody) (p : CreateProvider) (parsed : ParsedLink)
    (prod : Product) (e : String)
    (hparse : parseLinkBody b = .ok parsed)
    (hprod : p.products_create parsed.productName parsed.productDescription = .ok prod)
    (hprice : p.prices_create parsed.unitAmount parsed.currency prod.id = .error e) :
    handleCreatePaymentLink b p =
      (.serverError e,
       [.createProduct parsed.productName parsed.productDescription,
        .createPrice parsed.unitAmount parsed.currency prod.id]) ∧
    ∀ (priceId : String) (q : ℚ),
      StripeCall.createPaymentLink priceId q ∉
        [StripeCall.createProduct parsed.productName parsed.productDescription,
         StripeCall.createPrice parsed.unitAmount parsed.currency prod.id] := by
  constructor
  · simp [handleCreatePaymentLink, hparse, hprod, hprice]
  · intro priceId q h
    simp at h

/-- Witness for C5 at a concrete request and a provider whose price step
fails. -/
theorem C5_witness :
    parseLinkBody validBody = .ok ⟨"Widget", some "A widget", 500, "usd", 2⟩ ∧
    priceFailProvider.products_create "Widget" (some "A widget") =
      .ok ⟨"prod_1", "Widget", some "A widget"⟩ ∧
    priceFailProvider.prices_create 500 "usd" "prod_1" = .error "price boom" ∧
    (handleCreatePaymentLink validBody priceFailProvider =
      (.serverError "price boom",
       [.createProduct "Widget" (some "A widget"), .createPrice 500 "usd" "prod_1"]) ∧
     ∀ (priceId : String) (q : ℚ),
       StripeCall.createPaymentLink priceId q ∉
         [StripeCall.createProduct "Widget" (some "A widget"),
          StripeCall.createPrice 500 "usd" "prod_1"]) :=
  ⟨rfl, rfl, rfl,
    C5_theorem validBody priceFailProvider ⟨"Widget", some "A widget", 500, "usd", 2⟩
      ⟨"prod_1", "Widget", some "A widget"⟩ "price boom" rfl rfl rfl⟩

/-- C2 counterexample: for the request whose `unitAmount` is the string
`"0"`, the handler does NOT answer 400 with a field-scoped error; the plain
`Error` thrown inside the zod transform is not a `ZodError`, so the catch
falls through to the 500 branch (no provider call is made either way). -/
theorem C2_counterexample :
    handleCreatePaymentLink zeroAmountBody trivialCreateProvider =
      (.serverError "Unit amount must be a positive number", []) ∧
    ∀ (m : String) (errs : List FieldError) (calls : List StripeCall),
      handleCreatePaymentLink zeroAmountBody trivialCreateProvider ≠
        (.badRequest m errs, calls) := by
  refine ⟨by decide, ?_⟩
  intro m errs calls h
  have h1 : handleCreatePaymentLink zeroAmountBody trivialCreateProvider =
      (.serverError "Unit amount must be a positive number", []) := by decide
  rw [h1] at h
  simp at h

/-- C2 as amended: for every link-creation request whose `unitAmount` is a
nonempty string coercing to a number `<= 0` (in particular `"0"` or a
negative numeric string), the handler responds 500 whose body carries the
message of the transform's thrown `Error`, and no provider call is made. -/
theorem C2_theorem (b : LinkBody) (p : CreateProvider) (s : String) (q : ℚ)
    (hfield : b.unitAmount = some (.str s)) (hlen : 1 ≤ s.length)
    (hnum : jsNumber s = some q) (hq : q ≤ 0) :
    handleCreatePaymentLink b p =
      (.serverError "Unit amount must be a positive number", []) := by
  have hthrow : parseUnitAmount b.unitAmount =
      .thrown "Unit amount must be a positive number" := by
    rw [hfield]
    unfold parseUnitAmount
    dsimp only
    rw [if_neg (by omega), hnum]
    exact if_pos hq
  unfold handleCreatePaymentLink parseLinkBody
  rw [hthrow]

/-- Witness for C2 at the concrete string `"0"`. -/
theorem C2_witness :
    zeroAmountBody.unitAmount = some (.str "0") ∧
    1 ≤ "0".length ∧ jsNumber "0" = some 0 ∧ (0 : ℚ) ≤ 0 ∧
    handleCreatePaymentLink zeroAmountBody trivialCreateProvider =
      (.serverError "Unit amount must be a positive number", []) :=
  ⟨rfl, by decide, by decide, by decide,
    C2_theorem zeroAmountBody trivialCreateProvider "0" 0 rfl (by decide) (by decide) (by decide)⟩

/-- C4 counterexample: the request whose `unitAmount` is the string `"1.5"`
passes validation although the coerced unit amount 3/2 is not an integer
(the transforms check positivity but never integrality). -/
theorem C4_counterexample :
    parseLinkBody halfAmountBody = .ok ⟨"Widget", none, mkRat 3 2, "usd", 1⟩ ∧
    (mkRat 3 2).den = 2 ∧
    ∀ n : ℤ, mkRat 3 2 ≠ (n : ℚ) := by
  refine ⟨rfl, by decide, ?_⟩
  intro n h
  have hden := congrArg Rat.den h
  rw [Rat.den_intCast] at hden
  have h2 : (mkRat 3 2).den = 2 := by decide
  rw [h2] at hden
  exact absurd hden (by decide)

/-- C4 as amended: validation succeeds only when the coerced `unitAmount` is
a positive number and the coerced `quantity` is a number at least 1
(integrality is not required); when `quantity` is omitted, the parsed
quantity is 1. -/
theorem C4_theorem :
    (∀ (b : LinkBody) (parsed : ParsedLink), parseLinkBody b = .ok parsed →
      0 < parsed.unitAmount ∧ 1 ≤ parsed.quantity) ∧
    (∀ (b : LinkBody) (parsed : ParsedLink), b.quantity = none →
      parseLinkBody b = .ok parsed → parsed.quantity = 1) := by
  constructor
  · intro b parsed h
    obtain ⟨⟨i3, h3⟩, ⟨i5, h5⟩⟩ := parseLinkBody_ok_inv b parsed h
    exact ⟨parseUnitAmount_pos _ _ _ h3, parseQuantity_ge_one _ _ _ h5⟩
  · intro b parsed hq h
    obtain ⟨_, ⟨i5, h5⟩⟩ := parseLinkBody_ok_inv b parsed h
    rw [hq, parseQuantity_default] at h5
    simp only [FieldR.res.injEq, Option.some.injEq] at h5
    exact h5.2.symm

/-- Witness for C4: a fully valid request parses with positive unit amount
and quantity at least 1, and an omitted quantity parses to 1. -/
theorem C4_witness :
    parseLinkBody validBody = .ok ⟨"Widget", some "A widget", 500, "usd", 2⟩ ∧
    (0 < (ParsedLink.mk "Widget" (some "A widget") 500 "usd" 2).unitAmount ∧
     1 ≤ (ParsedLink.mk "Widget" (some "A widget") 500 "usd" 2).quantity) ∧
    halfAmountBody.quantity = none ∧
    (ParsedLink.mk "Widget" none (mkRat 3 2) "usd" 1).quantity = 1 :=
  ⟨rfl, C4_theorem.1 validBody ⟨"Widget", some "A widget", 500, "usd", 2⟩ rfl, rfl,
    C4_theorem.2 halfAmountBody ⟨"Widget", none, mkRat 3 2, "usd", 1⟩ rfl rfl⟩

/-- C10 counterexample: the request with `unitAmount` supplied as the JSON
number 500 (which satisfies the numeric constraint) and `quantity` as the
string `"0"` is NOT answered with a 400 naming `unitAmount`: the quantity
transform throws a plain `Error`, so the handler responds 500. -/
theorem C10_counterexample :
    numAmountMixedBody.unitAmount = some (.num 500) ∧ (0 : ℚ) < 500 ∧
    handleCreatePaymentLink numAmountMixedBody trivialCreateProvider =
      (.serverError "Quantity must be at least 1", []) ∧
    ∀ (m : String) (errs : List FieldError) (calls : List StripeCall),
      handleCreatePaymentLink numAmountMixedBody trivialCreateProvider ≠
        (.badRequest m errs, calls) := by
  refine ⟨rfl, by decide, by decide, ?_⟩
  intro m errs calls h
  have h1 : handleCreatePaymentLink numAmountMixedBody trivialCreateProvider =
      (.serverError "Quantity must be at least 1", []) := by decide
  rw [h1] at h
  simp at h

/-- C10 as amended: a request in which `unitAmount` or `quantity` is
supplied as a JSON number can never pass validation (only string-typed
values for these fields can); and whenever both fields are supplied as
numbers no transform can throw, so the handler responds 400 naming both
fields with type errors and makes no provider call. (When the other of the
two fields is a string whose coercion violates its constraint, its transform
throws instead and the handler responds 500, as the counterexample shows.) -/
theorem C10_theorem :
    (∀ (b : LinkBody) (parsed : ParsedLink), parseLinkBody b = .ok parsed →
      (∀ q : ℚ, b.unitAmount ≠ some (.num q)) ∧ (∀ q : ℚ, b.quantity ≠ some (.num q))) ∧
    (∀ (b : LinkBody) (p : CreateProvider) (qa qb : ℚ),
      b.unitAmount = some (.num qa) → b.quantity = some (.num qb) →
      ∃ errs, handleCreatePaymentLink b p = (.badRequest "Validation failed" errs, []) ∧
        FieldError.mk "unitAmount" "Expected string, received number" ∈ errs ∧
        FieldError.mk "quantity" "Expected string, received number" ∈ errs) := by
  constructor
  · intro b parsed h
    obtain ⟨⟨i3, h3⟩, ⟨i5, h5⟩⟩ := parseLinkBody_ok_inv b parsed h
    constructor
    · intro q hq
      rw [hq] at h3
      simp [parseUnitAmount] at h3
    · intro q hq
      rw [hq] at h5
      simp [parseQuantity] at h5
  · intro b p qa qb hua hqb
    refine ⟨(parseProductName b.productName).1 ++ (parseProductDescription b.productDescription).1 ++
      [⟨"unitAmount", "Expected string, received number"⟩] ++ (parseCurrency b.currency).1 ++
      [⟨"quantity", "Expected string, received number"⟩], ?_, by simp, by simp⟩
    unfold handleCreatePaymentLink parseLinkBody
    rw [hua, hqb]
    dsimp only [parseUnitAmount, parseQuantity]
    cases h1 : (parseProductName b.productName).2 <;>
      cases h2 : (parseProductDescription b.productDescription).2 <;>
        cases h4 : (parseCurrency b.currency).2 <;> rfl

/-- Witness for C10 at the request with both numeric fields supplied as
JSON numbers. -/
theorem C10_witness :
    numBothBody.unitAmount = some (.num 500) ∧
    numBothBody.quantity = some (.num 2) ∧
    ∃ errs, handleCreatePaymentLink numBothBody trivialCreateProvider =
        (.badRequest "Validation failed" errs, []) ∧
      FieldError.mk "unitAmount" "Expected string, received number" ∈ errs ∧
      FieldError.mk "quantity" "Expected string, received number" ∈ errs :=
  ⟨rfl, rfl, C10_theorem.2 numBothBody trivialCreateProvider 500 2 rfl rfl⟩

/-- C1 counterexample: with two succeeded intents where the checkout-session
lookup for `pi_A` throws `"boom"` while `pi_B` is fully resolvable, the
request as a whole fails with 500 `"boom"`: the sibling record of `pi_B` is
not returned, despite being resolvable on its own. -/
theorem C1_counterexample :
    handleSuccessfulPayments reportProviderBoom = .serverError "boom" ∧
    (∀ records, handleSuccessfulPayments reportProviderBoom ≠ .ok records) ∧
    resolveIntent reportProviderBoom intentB = .ok (some recordBoomB) := by
  refine ⟨by decide, ?_, rfl⟩
  intro records h
  have h1 : handleSuccessfulPayments reportProviderBoom = .serverError "boom" := by decide
  rw [h1] at h
  simp at h

/-- C1 as amended: resolution failures are isolated only in the
missing-session sense — a succeeded intent whose session listing returns no
session resolves to `null` (dropped record, no error) — but when any single
intent's resolution rejects with a provider error, the joint `Promise.all`
rejects and the whole request fails with 500 carrying that error. -/
theorem C1_theorem :
    (∀ (p : ReportProvider) (i : Intent), p.sessions_list i.id = .ok [] →
      resolveIntent p i = .ok none) ∧
    (∀ (p : ReportProvider) (intents : List Intent) (e : String),
      p.paymentIntents_list = .ok intents →
      exceptMap (resolveIntent p) (intents.filter fun i => i.status == "succeeded") = .error e →
      handleSuccessfulPayments p = .serverError e) := by
  constructor
  · intro p i h
    exact resolveIntent_no_session p i h
  · intro p intents e hint hmap
    have hls : listSuccessfulPayments p = .error e := by
      unfold listSuccessfulPayments
      rw [hint]
      dsimp only
      rw [hmap]
    exact handleSuccessfulPayments_error p e hls

/-- Witness for C1 at the concrete two-intent provider whose first
resolution rejects with `"boom"`. -/
theorem C1_witness :
    reportProviderBoom.paymentIntents_list = .ok [intentA, intentB] ∧
    exceptMap (resolveIntent reportProviderBoom)
      ([intentA, intentB].filter fun i => i.status == "succeeded") = .error "boom" ∧
    handleSuccessfulPayments reportProviderBoom = .serverError "boom" :=
  ⟨rfl, rfl, C1_theorem.2 reportProviderBoom [intentA, intentB] "boom" rfl rfl⟩

/-- C6: every record of a successful report has status `"succeeded"`, and
intents with any other status contribute nothing and raise no error: the
handler's outcome is unchanged when the listing is replaced by its
already-filtered succeeded sublist. -/
theorem C6_theorem :
    (∀ (p : ReportProvider) (records : List PaymentRecord) (r : PaymentRecord),
      handleSuccessfulPayments p = .ok records → r ∈ records → r.status = "succeeded") ∧
    (∀ (p : ReportProvider) (intents : List Intent), p.paymentIntents_list = .ok intents →
      handleSuccessfulPayments p = handleSuccessfulPayments
        { paymentIntents_list := .ok (intents.filter fun i => i.status == "succeeded"),
          sessions_list := p.sessions_list,
          sessions_retrieve := p.sessions_retrieve,
          products_retrieve := p.products_retrieve }) := by
  constructor
  · intro p records r hok hr
    obtain ⟨intents, results, hint, hres, heq⟩ :=
      listSuccessfulPayments_ok_inv p records (handleSuccessfulPayments_ok_inv p records hok)
    subst heq
    have hsome : some r ∈ results := by
      obtain ⟨o, ho, hor⟩ := List.mem_filterMap.mp hr
      exact hor ▸ ho
    obtain ⟨i, hi, hfi⟩ := exceptMap_ok_mem (resolveIntent p) _ results hres (some r) hsome
    have hst := (resolveIntent_fields p i r hfi).2.2.2.1
    rw [hst]
    exact eq_of_beq (List.mem_filter.mp hi).2
  · intro p intents h
    unfold handleSuccessfulPayments listSuccessfulPayments
    rw [h]
    dsimp only
    rw [filter_succeeded_idem intents]
    rfl

/-- Witness for C6 at a concrete provider whose listing mixes succeeded and
non-succeeded intents. -/
theorem C6_witness :
    handleSuccessfulPayments reportProviderA = .ok [recordA, recordC] ∧
    recordA ∈ [recordA, recordC] ∧
    recordA.status = "succeeded" :=
  ⟨by decide, by simp,
    C6_theorem.1 reportProviderA [recordA, recordC] recordA (by decide) (by simp)⟩

/-- C7: a succeeded intent whose checkout-session listing returns no session
contributes no record and raises no error, and the surviving records keep
the provider's listing order; in particular, with exactly two succeeded
intents of which only `pi_C` has a discoverable session, the report is
exactly the one record for `pi_C` (and with three resolvable-or-not intents
the order `pi_A` before `pi_C` is preserved). -/
theorem C7_theorem :
    (∀ (p : ReportProvider) (i : Intent), p.sessions_list i.id = .ok [] →
      resolveIntent p i = .ok none) ∧
    handleSuccessfulPayments reportProviderTwo = .ok [recordC] ∧
    handleSuccessfulPayments reportProviderA = .ok [recordA, recordC] := by
  refine ⟨?_, by decide, by decide⟩
  intro p i h
  exact resolveIntent_no_session p i h

/-- Witness for C7: the two-intent fixture's unresolvable intent `pi_B`
resolves to `null` without an error. -/
theorem C7_witness :
    reportProviderTwo.sessions_list intentB.id = .ok [] ∧
    resolveIntent reportProviderTwo intentB = .ok none :=
  ⟨rfl, C7_theorem.1 reportProviderTwo intentB rfl⟩

/-- C8: every record's `created` field is the ISO-8601 string of the source
intent's epoch-seconds `created` value times 1000 milliseconds; in
particular 1714000000 epoch seconds yields the ISO-8601 instant of
1714000000000 milliseconds. -/
theorem C8_theorem :
    (∀ (p : ReportProvider) (intents : List Intent) (records : List PaymentRecord)
       (r : PaymentRecord),
      p.paymentIntents_list = .ok intents →
      handleSuccessfulPayments p = .ok records → r ∈ records →
      ∃ i ∈ intents, r.created = toISOString (i.created * 1000)) ∧
    toISOString (1714000000 * 1000) = "2024-04-24T23:06:40.000Z" := by
  constructor
  · intro p intents records r hint hok hr
    obtain ⟨intents2, results, hint2, hres, heq⟩ :=
      listSuccessfulPayments_ok_inv p records (handleSuccessfulPayments_ok_inv p records hok)
    rw [hint] at hint2
    have hints : intents = intents2 := by
      simpa using hint2
    subst hints
    subst heq
    have hsome : some r ∈ results := by
      obtain ⟨o, ho, hor⟩ := List.mem_filterMap.mp hr
      exact hor ▸ ho
    obtain ⟨i, hi, hfi⟩ := exceptMap_ok_mem (resolveIntent p) _ results hres (some r) hsome
    exact ⟨i, (List.mem_filter.mp hi).1, (resolveIntent_fields p i r hfi).2.2.2.2⟩
  · decide

/-- Witness for C8 at the fixture whose intent `pi_C` was created at epoch
seconds 1714000000. -/
theorem C8_witness :
    reportProviderA.paymentIntents_list = .ok [intentA, intentB, intentC, intentD] ∧
    handleSuccessfulPayments reportProviderA = .ok [recordA, recordC] ∧
    recordC ∈ [recordA, recordC] ∧
    ∃ i ∈ [intentA, intentB, intentC, intentD],
      recordC.created = toISOString (i.created * 1000) :=
  ⟨rfl, by decide, by simp,
    C8_theorem.1 reportProviderA [intentA, intentB, intentC, intentD]
      [recordA, recordC] recordC rfl (by decide) (by simp)⟩

/-- C9: buyer email and name are taken from the retrieved session's customer
details when present (nonempty), otherwise fall back to the first charge's
billing details and then to `"N/A"`; the phone is taken only from the
session's customer details with no charge fallback. With a session carrying
no customer details and a charge with billing email `a@b.com`, the resolved
record has buyerEmail `a@b.com` and buyerPhone `"N/A"`. -/
theorem C9_theorem :
    (∀ (sw : Session) (ch : Option Charge), sw.customer_details = none →
      (buyerFields sw ch).1 =
        jsOrElse ((ch.bind Charge.billing_details).bind BillingDetails.email) "N/A" ∧
      (buyerFields sw ch).2.1 =
        jsOrElse ((ch.bind Charge.billing_details).bind BillingDetails.name) "N/A" ∧
      (buyerFields sw ch).2.2 = "N/A") ∧
    (∀ (sw : Session) (ch : Option Charge) (e : String),
      sw.customer_details.bind CustomerDetails.email = some e → e ≠ "" →
      (buyerFields sw ch).1 = e) ∧
    handleSuccessfulPayments reportProviderBilling = .ok [recordBilling] ∧
    recordBilling.buyerEmail = "a@b.com" ∧ recordBilling.buyerPhone = "N/A" := by
  refine ⟨?_, ?_, by decide, rfl, rfl⟩
  · intro sw ch h
    simp [buyerFields, h, jsOrElse]
  · intro sw ch e he hne
    simp [buyerFields, he, jsOrElse, hne]

/-- Witness for C9: the fallback chain evaluated at a session without
customer details and a charge with billing email, and the session-first
precedence at a session that captured an email. -/
theorem C9_witness :
    (Session.mk "cs_9" none none).customer_details = none ∧
    ((buyerFields (Session.mk "cs_9" none none)
        (some (Charge.mk (some (BillingDetails.mk (some "a@b.com") (some "Al")))))).1 =
      jsOrElse (((some (Charge.mk (some (BillingDetails.mk (some "a@b.com") (some "Al"))))).bind
        Charge.billing_details).bind BillingDetails.email) "N/A" ∧
     (buyerFields (Session.mk "cs_9" none none)
        (some (Charge.mk (some (BillingDetails.mk (some "a@b.com") (some "Al")))))).2.1 =
      jsOrElse (((some (Charge.mk (some (BillingDetails.mk (some "a@b.com") (some "Al"))))).bind
        Charge.billing_details).bind BillingDetails.name) "N/A" ∧
     (buyerFields (Session.mk "cs_9" none none)
        (some (Charge.mk (some (BillingDetails.mk (some "a@b.com") (some "Al")))))).2.2 = "N/A") ∧
    (Session.mk "cs_X" (some (CustomerDetails.mk (some "x@y.z") none none))
      none).customer_details.bind CustomerDetails.email = some "x@y.z" ∧
    (buyerFields (Session.mk "cs_X" (some (CustomerDetails.mk (some "x@y.z") none none))
      none) none).1 = "x@y.z" :=
  ⟨rfl,
    C9_theorem.1 (Session.mk "cs_9" none none)
      (some (Charge.mk (some (BillingDetails.mk (some "a@b.com") (some "Al"))))) rfl,
    rfl,
    C9_theorem.2.1 (Session.mk "cs_X" (some (CustomerDetails.mk (some "x@y.z") none none)) none)
      none "x@y.z" rfl (by decide)⟩
